import Mathlib

/-!
Shallow embedding of the idempotent order-submission pipeline of the
modernfi-takehome repository: the idempotency middleware
(`packages/api/src/middlewares/checkIdempotency.ts`), the order controller
(`ordersController.ts`) and the order service (`ordersService.ts`,
validation / in-memory storage / pagination).

Modelling conventions:
* JS timestamps (`Date.getTime()`, `Date.now()`) are `Int` milliseconds.
* A JS `Date` object is `Option Int`: `none` is an Invalid Date (`NaN` time).
* JS numbers are `Option ℚ`: `none` is `NaN`, `some q` a finite value.
* Dynamically typed JSON fields are `JVal`.
* Runtime-supplied quantities (the clock, the generated order id, the
  `new Date(string)` parser, the locale-dependent "end of today" and
  "ten years ago" calendar values computed inside validation) are fields
  of an explicit environment `Env`.
-/

/-- A dynamically typed JS/JSON value, as it can appear in a request body
field.  `jnum none` is `NaN`. -/
inductive JVal where
  | undef
  | jnull
  | jbool (b : Bool)
  | jnum (q : Option ℚ)
  | jstr (s : String)
deriving DecidableEq, Repr

/-- JS truthiness of a `JVal` (`undefined`, `null`, `false`, `0`, `NaN` and
`""` are falsy). -/
def JVal.truthy : JVal → Bool
  | .undef => false
  | .jnull => false
  | .jbool b => b
  | .jnum none => false
  | .jnum (some q) => q != 0
  | .jstr s => s != ""

/-- `typeof v === 'string'`. -/
def JVal.isStringVal : JVal → Bool
  | .jstr _ => true
  | _ => false

/-- Modelled from the spec: the fixed term→series mapping of
`packages/api/src/constants/fredConstants.ts`, a file that is not present in
the source tree (only its imports are).  The spec describes it as a fixed
enumerated mapping from treasury terms (`1M..30Y`) to the external data
provider's series identifiers. -/
def TREASURY_SERIES : List (String × String) :=
  [("1M", "DGS1MO"), ("3M", "DGS3MO"), ("6M", "DGS6MO"), ("1Y", "DGS1"),
   ("2Y", "DGS2"), ("5Y", "DGS5"), ("10Y", "DGS10"), ("30Y", "DGS30")]

/-- `Object.keys(TREASURY_SERIES)`. -/
def VALID_TERMS : List String := TREASURY_SERIES.map Prod.fst

/-- `TREASURY_SERIES[term]` (object indexing; `none` when the term is not a
key of the mapping). -/
def lookupSeries (t : String) : Option String :=
  (TREASURY_SERIES.find? (fun p => p.1 = t)).map Prod.snd

/-- One `{field, message}` entry of the validation error list. -/
structure OrderValidationError where
  field : String
  message : String
deriving DecidableEq, Repr

/-- A stored Order record.  In JS the record holds whatever dynamic values
passed validation, so the body fields stay `JVal`; `curve_date` is the
`Date` object built by the controller and `created_at` the server-assigned
creation timestamp. -/
structure Order where
  id : String
  curve_date : Option Int
  term : JVal
  amount_in_cents : JVal
  rate_at_submission : JVal
  series_id : JVal
  created_at : Int
deriving DecidableEq, Repr

/-- The candidate passed to `orderService.createOrder`
(`Omit<Order, 'id' | 'created_at'>`).  The controller always builds
`curve_date` as `new Date(raw)`, which is a `Date` object (possibly
invalid), so the `instanceof Date` test of the source always takes the
`Date` branch and the falsy (`!orderData.curve_date`) branch cannot fire. -/
structure OrderData where
  curve_date : Option Int
  term : JVal
  amount_in_cents : JVal
  rate_at_submission : JVal
  series_id : JVal
deriving DecidableEq, Repr

/-- Runtime environment of one request: the clock, the generated order id
(`order_${Date.now()}_${random}`), the `new Date(string)` parser, and the
two calendar values computed inside `validateOrderData`:
`endOfToday` is `new Date()` with `setHours(23, 59, 59, 999)` applied and
`tenYearsAgo` is `new Date()` with `setFullYear(year - 10)` applied. -/
structure Env where
  now : Int
  endOfToday : Int
  tenYearsAgo : Int
  freshId : String
  dateParse : String → Option Int

/-- Facts that always hold of the JS runtime values: the end of the current
day is between `now` and `now + 24h`, and the ten-years-ago instant is not
after `now`. -/
def Env.wf (e : Env) : Prop :=
  e.now ≤ e.endOfToday ∧ e.endOfToday < e.now + 86400000 ∧ e.tenYearsAgo ≤ e.now

/-- The `term` check block of `validateOrderData`.
`!orderData.term || typeof orderData.term !== 'string'` holds exactly when
the value is not a string (non-strings that are truthy fail the `typeof`
test, falsy ones fail `!term`) or is the empty string (falsy). -/
def validateTerm (od : OrderData) : List OrderValidationError :=
  match od.term with
  | .jstr s =>
      if s = "" then
        [⟨"term", "Term is required and must be a string"⟩]
      else if s ∈ VALID_TERMS then []
      else
        [⟨"term", "Invalid term. Must be one of: " ++ String.intercalate ", " VALID_TERMS⟩]
  | _ => [⟨"term", "Term is required and must be a string"⟩]

/-- The `amount_in_cents` check block of `validateOrderData`.
`Number.isInteger NaN` is `false`, so a `NaN` amount reports the integer
message; a rational is an integer exactly when its denominator is 1. -/
def validateAmount (od : OrderData) : List OrderValidationError :=
  match od.amount_in_cents with
  | .undef => [⟨"amount_in_cents", "Amount in cents is required"⟩]
  | .jnull => [⟨"amount_in_cents", "Amount in cents is required"⟩]
  | .jnum none => [⟨"amount_in_cents", "Amount in cents must be an integer"⟩]
  | .jnum (some q) =>
      if q.den ≠ 1 then [⟨"amount_in_cents", "Amount in cents must be an integer"⟩]
      else if q ≤ 0 then [⟨"amount_in_cents", "Amount in cents must be greater than 0"⟩]
      else if q > 1000000000000 then [⟨"amount_in_cents", "Amount exceeds maximum allowed value"⟩]
      else []
  | _ => [⟨"amount_in_cents", "Amount in cents must be a number"⟩]

/-- The `rate_at_submission` check block of `validateOrderData`. -/
def validateRate (od : OrderData) : List OrderValidationError :=
  match od.rate_at_submission with
  | .undef => [⟨"rate_at_submission", "Rate at submission is required"⟩]
  | .jnull => [⟨"rate_at_submission", "Rate at submission is required"⟩]
  | .jnum none => [⟨"rate_at_submission", "Rate at submission must be a valid number"⟩]
  | .jnum (some q) =>
      if q < 0 then [⟨"rate_at_submission", "Rate at submission cannot be negative"⟩]
      else if q > 100 then [⟨"rate_at_submission", "Rate at submission cannot exceed 100%"⟩]
      else []
  | _ => [⟨"rate_at_submission", "Rate at submission must be a number"⟩]

/-- The `curve_date` check block of `validateOrderData`.  The candidate's
`curve_date` is the `Date` object built by the controller (a `Date` is
always truthy, so the `!orderData.curve_date` branch cannot fire, and the
`instanceof Date` test always takes the `Date` branch).  An Invalid Date
has `NaN` time.  The future check and the too-old check are two separate
`if`s in the source, both appended. -/
def validateCurveDate (env : Env) (od : OrderData) : List OrderValidationError :=
  match od.curve_date with
  | none => [⟨"curve_date", "Curve date must be a valid date"⟩]
  | some t =>
      (if t > env.endOfToday then [⟨"curve_date", "Curve date cannot be in the future"⟩] else [])
        ++ (if t < env.tenYearsAgo then [⟨"curve_date", "Curve date is too far in the past"⟩] else [])

/-- JS `String.prototype.trim()`: strip leading and trailing whitespace.
(Written over the character list so that it is kernel-computable.) -/
def jsTrim (s : String) : String :=
  ⟨((s.data.dropWhile Char.isWhitespace).reverse.dropWhile Char.isWhitespace).reverse⟩

/-- The `series_id` check block of `validateOrderData`.  The cross-field
check against the mapped series only runs when `orderData.term` is truthy
and a member of `VALID_TERMS` (which requires it to be a string). -/
def validateSeriesId (od : OrderData) : List OrderValidationError :=
  match od.series_id with
  | .jstr s =>
      if s = "" then
        [⟨"series_id", "Series ID is required and must be a string"⟩]
      else if (jsTrim s).length = 0 then
        [⟨"series_id", "Series ID cannot be empty"⟩]
      else
        match od.term with
        | .jstr t =>
            if t ≠ "" ∧ t ∈ VALID_TERMS then
              match lookupSeries t with
              | some expectedSeriesId =>
                  if s ≠ expectedSeriesId then
                    [⟨"series_id",
                      "Series ID does not match expected value for term " ++ t
                        ++ ". Expected: " ++ expectedSeriesId⟩]
                  else []
              | none => []
            else []
        | _ => []
  | _ => [⟨"series_id", "Series ID is required and must be a string"⟩]

/-- `validateOrderData`: runs every field block and accumulates all failures
in source order (term, amount, rate, curve date, series id). -/
def validateOrderData (env : Env) (od : OrderData) : List OrderValidationError :=
  validateTerm od ++ validateAmount od ++ validateRate od
    ++ validateCurveDate env od ++ validateSeriesId od

/-- `errors.map(e => field + ': ' + message).join('; ')`. -/
def joinErrors (errs : List OrderValidationError) : String :=
  String.intercalate "; " (errs.map fun e => e.field ++ ": " ++ e.message)

/-- Response bodies produced by this core, as structured JSON values.
Equality of two `Body` values is byte-identity of their serializations. -/
inductive Body where
  | errorOnly (error : String)
  | failure (error : String)
  | created (data : Order)
  | existing (data : Order) (message : String)
  | ordersPage (data : List Order) (page limit : Int) (total total_pages : Nat)
deriving DecidableEq, Repr

/-- An HTTP response: the status code set with `res.status` and the JSON
body passed to `res.json`. -/
structure HttpResponse where
  status : Nat
  body : Body
deriving DecidableEq, Repr

/-- The `{status, data}` pair recorded by the idempotency middleware. -/
structure RecordedResponse where
  status : Nat
  data : Body
deriving DecidableEq, Repr

/-- One value of the idempotency store map:
`{ response: {status, data}, timestamp }`. -/
structure IdemEntry where
  response : RecordedResponse
  timestamp : Int
deriving DecidableEq, Repr

/-- The idempotency store: a JS `Map` from keys to entries, as an
insertion-ordered association list with unique keys. -/
abbrev IdemStore := List (String × IdemEntry)

/-- `Map.get`. -/
def mapGet (store : IdemStore) (k : String) : Option IdemEntry :=
  (store.find? (fun p => p.1 = k)).map Prod.snd

/-- `Map.set`: replaces the value in place when the key exists, otherwise
appends in insertion order. -/
def mapSet (store : IdemStore) (k : String) (v : IdemEntry) : IdemStore :=
  if store.any (fun p => p.1 = k) then
    store.map (fun p => if p.1 = k then (k, v) else p)
  else store ++ [(k, v)]

/-- `cleanupOldEntries`: deletes every entry whose timestamp is strictly
older than `now - 24 * 60 * 60 * 1000`. -/
def cleanupOldEntries (now : Int) (store : IdemStore) : IdemStore :=
  let oneDayAgo := now - 24 * 60 * 60 * 1000
  store.filter (fun p => !(p.2.timestamp < oneDayAgo))

/-- Shared mutable state of the server process: the idempotency map and the
in-memory order array. -/
structure ServerState where
  idempotencyStore : IdemStore
  orders : List Order
deriving DecidableEq, Repr

/-- The raw JSON body of a `POST /api/orders` request. -/
structure RawBody where
  curve_date : JVal
  term : JVal
  amount_in_cents : JVal
  rate_at_submission : JVal
  series_id : JVal
deriving DecidableEq, Repr

/-- A `POST /api/orders` request: the `Idempotency-Key` header (`none` when
absent) and the JSON body. -/
structure CreateRequest where
  idempotencyKey : Option String
  body : RawBody
deriving Repr

/-- JS `ToIntegerOrInfinity` truncation toward zero, used by the `Date`
constructor on a numeric argument. -/
def jsTrunc (q : ℚ) : Int := if 0 ≤ q then q.floor else q.ceil

/-- `new Date(v)` on a dynamic argument: strings go through the runtime
date parser, numbers are millisecond timestamps (`NaN` gives an Invalid
Date), `null`/`false`/`true` coerce to 0/0/1, `undefined` gives an Invalid
Date. -/
def jsNewDate (env : Env) : JVal → Option Int
  | .jstr s => env.dateParse s
  | .jnum none => none
  | .jnum (some q) => some (jsTrunc q)
  | .jbool b => some (if b then 1 else 0)
  | .jnull => some 0
  | .undef => none

/-- The controller's missing-required-fields test:
`!curve_date || !term || !series_id || amount_in_cents === undefined ||
rate_at_submission === undefined`. -/
def missingFields (b : RawBody) : Bool :=
  !b.curve_date.truthy || !b.term.truthy || !b.series_id.truthy
    || b.amount_in_cents == JVal.undef || b.rate_at_submission == JVal.undef

/-- The candidate the controller hands to `orderService.createOrder`: the
five destructured body fields, with `curve_date` replaced by
`new Date(curve_date)`. -/
def buildOrderData (env : Env) (b : RawBody) : OrderData :=
  { curve_date := jsNewDate env b.curve_date
    term := b.term
    amount_in_cents := b.amount_in_cents
    rate_at_submission := b.rate_at_submission
    series_id := b.series_id }

/-- JS `String.prototype.startsWith(p)`: the characters of `p` are a prefix
of the characters of the receiver. -/
def jsStartsWith (s p : String) : Bool := p.data.isPrefixOf s.data

namespace orderService

/-- `orderService.getOrdersPaginated`: sorts a copy of the order array by
`created_at` descending, computes `total`, `total_pages = ceil(total/limit)`
and the slice `[(page-1)*limit, page*limit)`.  The controller guarantees
`page ≥ 1` and `1 ≤ limit ≤ 100`, so both are taken as `Nat` and the
ceiling is Nat ceiling division. -/
def getOrdersPaginated (orders : List Order) (page limit : Nat) :
    List Order × Nat × Nat :=
  let sortedOrders := List.insertionSort (fun a b : Order => b.created_at ≤ a.created_at) orders
  let total := sortedOrders.length
  let totalPages := (total + limit - 1) / limit
  let startIndex := (page - 1) * limit
  ((sortedOrders.drop startIndex).take limit, total, totalPages)

/-- The record `{ id, created_at, ...orderData }` built inside
`orderService.createOrder`. -/
def mkNewOrder (env : Env) (od : OrderData) : Order :=
  { id := env.freshId
    created_at := env.now
    curve_date := od.curve_date
    term := od.term
    amount_in_cents := od.amount_in_cents
    rate_at_submission := od.rate_at_submission
    series_id := od.series_id }

/-- `orderService.createOrder`: validates, and on success appends the new
record and returns it; on failure throws
`Error('Validation failed: ' + joined)`. -/
def createOrder (env : Env) (orders : List Order) (od : OrderData) :
    Except String (Order × List Order) :=
  let errors := validateOrderData env od
  if errors.isEmpty then
    .ok (mkNewOrder env od, orders ++ [mkNewOrder env od])
  else .error ("Validation failed: " ++ joinErrors errors)

/-- Reading `(order as any).idempotencyKey`: no code path ever assigns this
property on a stored order (`createOrder` builds the record from the five
body fields plus `id` and `created_at` only), so the read yields
`undefined`. -/
def orderIdemKey (_ : Order) : Option String := none

/-- `orderService.findOrderByIdempotencyKey`:
`orders.find(order => (order as any).idempotencyKey === idempotencyKey)`. -/
def findOrderByIdempotencyKey (orders : List Order) (key : String) : Option Order :=
  orders.find? (fun o => orderIdemKey o == some key)

end orderService

namespace orderController

/-- `orderController.createOrder` (the part behind the idempotency gate):
takes the current order array and the request, returns the response and the
new order array. -/
def createOrder (env : Env) (orders : List Order) (key : String) (b : RawBody) :
    HttpResponse × List Order :=
  match orderService.findOrderByIdempotencyKey orders key with
  | some existingOrder =>
      (⟨200, .existing existingOrder "Order already exists (idempotent)"⟩, orders)
  | none =>
      if missingFields b then
        (⟨400, .failure "Missing required fields: curve_date, term, series_id, amount_cents, rate"⟩,
          orders)
      else
        match orderService.createOrder env orders (buildOrderData env b) with
        | .ok (newOrder, orders2) => (⟨201, .created newOrder⟩, orders2)
        | .error msg =>
            if jsStartsWith msg "Validation failed:" then (⟨400, .failure msg⟩, orders)
            else (⟨500, .failure "Failed to create order"⟩, orders)

/-- `parseInt(s)` on a decimal string: skip leading whitespace, optional
sign, then the longest digit run; `NaN` (`none`) when no digit follows. -/
def jsParseInt (s : String) : Option Int :=
  let cs := s.toList.dropWhile Char.isWhitespace
  let signed : Int × List Char :=
    match cs with
    | '-' :: r => (-1, r)
    | '+' :: r => (1, r)
    | _ => (1, cs)
  let ds := signed.2.takeWhile Char.isDigit
  if ds.isEmpty then none
  else some (signed.1 * (ds.foldl (fun n c => n * 10 + (c.toNat - '0'.toNat)) 0 : Nat))

/-- `parseInt(req.query.x as string)`: an absent parameter parses to
`NaN`. -/
def jsParseIntOpt : Option String → Option Int
  | none => none
  | some s => jsParseInt s

/-- `v || d`: the parsed value unless it is `NaN` or `0` (both falsy), in
which case the default. -/
def jsOrDefault (v : Option Int) (d : Int) : Int :=
  match v with
  | none => d
  | some n => if n = 0 then d else n

/-- `orderController.getOrders`: parses and bounds-checks `page` and
`limit`, then serves the paginated listing. -/
def getOrders (orders : List Order) (qpage qlimit : Option String) : HttpResponse :=
  let page := jsOrDefault (jsParseIntOpt qpage) 1
  let limit := jsOrDefault (jsParseIntOpt qlimit) 10
  if page < 1 then ⟨400, .failure "Page must be greater than 0"⟩
  else if limit < 1 ∨ limit > 100 then ⟨400, .failure "Limit must be between 1 and 100"⟩
  else
    let r := orderService.getOrdersPaginated orders page.toNat limit.toNat
    ⟨200, .ordersPage r.1 page limit r.2.1 r.2.2⟩

end orderController

/-- The full `POST /api/orders` pipeline: the `checkIdempotency` middleware
(missing-key rejection, replay of a recorded response, or response capture
via the wrapped `res.json`) composed with `orderController.createOrder`. -/
def handleCreateOrder (env : Env) (st : ServerState) (req : CreateRequest) :
    HttpResponse × ServerState :=
  match req.idempotencyKey with
  | none => (⟨400, .errorOnly "Missing Idempotency-Key header"⟩, st)
  | some key =>
      if key = "" then (⟨400, .errorOnly "Missing Idempotency-Key header"⟩, st)
      else
        match mapGet st.idempotencyStore key with
        | some entry => (⟨entry.response.status, entry.response.data⟩, st)
        | none =>
            let result := orderController.createOrder env st.orders key req.body
            let store2 := mapSet st.idempotencyStore key
              { response := { status := result.1.status, data := result.1.body }
                timestamp := env.now }
            (result.1, { idempotencyStore := store2, orders := result.2 })

/-! ### Derived definitions, specification-side predicates, and concrete fixtures -/

/-- Whether the accumulated error list carries an entry for a given field. -/
def hasErrorFor (errs : List OrderValidationError) (f : String) : Bool :=
  errs.any (fun e => e.field = f)

/-- The spec's wording of the amount rule: a positive integer of at most
10^12 cents. -/
def specAmountAccepted (od : OrderData) : Prop :=
  ∃ q : ℚ, od.amount_in_cents = JVal.jnum (some q) ∧ q.den = 1 ∧ 0 < q ∧ q ≤ 1000000000000

/-- The curve-date window actually enforced by the code: a valid date, not
after the end of the current day, not before now minus ten years. -/
def specCurveDateAccepted (env : Env) (od : OrderData) : Prop :=
  ∃ t : Int, od.curve_date = some t ∧ t ≤ env.endOfToday ∧ env.tenYearsAgo ≤ t

/-- The series rule: a string that is non-empty after trimming and, when the
term is a member of the known term set, equal to the series mapped from the
term. -/
def specSeriesAccepted (od : OrderData) : Prop :=
  ∃ s : String, od.series_id = JVal.jstr s ∧ (jsTrim s).length ≠ 0
    ∧ ∀ t : String, od.term = JVal.jstr t → t ∈ VALID_TERMS → lookupSeries t = some s

/-- A concrete runtime environment: shortly after midnight on day 0 of the
epoch, with a date parser that knows one date string. -/
def envA : Env :=
  { now := 1000000, endOfToday := 86399999, tenYearsAgo := -314496400000
    freshId := "order_1000000_k3j9d1q7z"
    dateParse := fun s => if s = "2025-06-15" then some 500000 else none }

/-- A request body that passes every validation check. -/
def bodyValid : RawBody :=
  { curve_date := .jstr "2025-06-15", term := .jstr "1Y"
    amount_in_cents := .jnum (some 50000), rate_at_submission := .jnum (some 4)
    series_id := .jstr "DGS1" }

/-- A request body whose amount is negative, so validation fails. -/
def bodyInvalidAmount : RawBody :=
  { curve_date := .jstr "2025-06-15", term := .jstr "1Y"
    amount_in_cents := .jnum (some (-5)), rate_at_submission := .jnum (some 4)
    series_id := .jstr "DGS1" }

/-- A valid creation request carrying the key `key-1`. -/
def reqValid : CreateRequest := ⟨some "key-1", bodyValid⟩

/-- An invalid creation request carrying the key `key-1`. -/
def reqInvalid : CreateRequest := ⟨some "key-1", bodyInvalidAmount⟩

/-- The initial server state: both stores empty. -/
def stEmpty : ServerState := ⟨[], []⟩

/-- The spec's multi-failure example: `term = ""`, `amount_in_cents = -5`,
`rate_at_submission = 150`, other fields valid. -/
def odC4 : OrderData :=
  { curve_date := some 500000, term := .jstr ""
    amount_in_cents := .jnum (some (-5)), rate_at_submission := .jnum (some 150)
    series_id := .jstr "DGS10" }

/-- An environment at `now = 0` whose end-of-day is strictly later than
`now`, as on every real clock reading except the last millisecond of a
day. -/
def envC5 : Env :=
  { now := 0, endOfToday := 86399999, tenYearsAgo := -315619200000
    freshId := "order_0_x1y2z3abc", dateParse := fun _ => none }

/-- A candidate whose curve date (`t = 1000`) lies after `now = 0` but
before the end of the current day. -/
def odC5 : OrderData :=
  { curve_date := some 1000, term := .jstr "1Y"
    amount_in_cents := .jnum (some 50000), rate_at_submission := .jnum (some 4)
    series_id := .jstr "DGS1" }

/-- A state whose idempotency store already records the `201` response of
`reqValid` under `key-1`, with the created order stored. -/
def entryRecorded : IdemEntry :=
  ⟨⟨201, .created (orderService.mkNewOrder envA (buildOrderData envA bodyValid))⟩, 1000000⟩

/-- The server state holding `entryRecorded` and the created order. -/
def stRecorded : ServerState :=
  ⟨[("key-1", entryRecorded)], [orderService.mkNewOrder envA (buildOrderData envA bodyValid)]⟩

/-- The two-request replay contract: the second response and state equal
the first, the collection grows by at most one, and it grows by exactly one
precisely when the key was fresh and the first response was a 201. -/
def replayPairSpec (env1 env2 : Env) (st : ServerState) (req : CreateRequest) (key : String) : Prop :=
  (handleCreateOrder env2 (handleCreateOrder env1 st req).2 req).1
      = (handleCreateOrder env1 st req).1
  ∧ (handleCreateOrder env2 (handleCreateOrder env1 st req).2 req).2
      = (handleCreateOrder env1 st req).2
  ∧ (((handleCreateOrder env1 st req).2).orders.length = st.orders.length
      ∨ ((handleCreateOrder env1 st req).2).orders.length = st.orders.length + 1)
  ∧ ((mapGet st.idempotencyStore key = none ∧ (handleCreateOrder env1 st req).1.status = 201)
      ↔ ((handleCreateOrder env1 st req).2).orders.length = st.orders.length + 1)

/-- The replay contract after a recorded success: the first response body
was the bare created-order payload, and the replay returns it verbatim with
no state change. -/
def replaySuccessSpec (env1 env2 : Env) (st : ServerState) (req : CreateRequest) : Prop :=
  (handleCreateOrder env1 st req).1.body
      = Body.created (orderService.mkNewOrder env1 (buildOrderData env1 req.body))
  ∧ handleCreateOrder env2 (handleCreateOrder env1 st req).2 req
      = ((handleCreateOrder env1 st req).1, (handleCreateOrder env1 st req).2)

/-- The contract of a first-seen validation failure: response 400 carrying
the accumulated error list (serialized after the "Validation failed: "
banner), no change to the order collection, the 400 recorded against the
key, and a retry with the same key replayed verbatim with no state
change. -/
def validationFailureSpec (env1 env2 : Env) (st : ServerState) (req : CreateRequest)
    (key : String) : Prop :=
  handleCreateOrder env1 st req
      = (⟨400, Body.failure ("Validation failed: "
            ++ joinErrors (validateOrderData env1 (buildOrderData env1 req.body)))⟩,
          { idempotencyStore :=
              mapSet st.idempotencyStore key
                ⟨⟨400, Body.failure ("Validation failed: "
                    ++ joinErrors (validateOrderData env1 (buildOrderData env1 req.body)))⟩,
                  env1.now⟩
            orders := st.orders })
  ∧ handleCreateOrder env2 (handleCreateOrder env1 st req).2 req
      = ((handleCreateOrder env1 st req).1, (handleCreateOrder env1 st req).2)

instance : IsTotal Order (fun a b => b.created_at ≤ a.created_at) :=
  ⟨fun a b => le_total b.created_at a.created_at⟩

instance : IsTrans Order (fun a b => b.created_at ≤ a.created_at) :=
  ⟨fun _ _ _ h1 h2 => le_trans h2 h1⟩

/-- What C6 asserts of one `getOrdersPaginated` call: `total` is the
collection size, `total_pages` is the ceiling of `total / limit` (pinned by
the two inequalities), the returned page is sorted by `created_at`
descending, it is exactly the slice `[(page-1)*limit, page*limit)` of the
descending sort (a permutation of the stored collection), and a page past
the last one is empty rather than an error. -/
def paginationSpec (orders : List Order) (page limit : Nat) : Prop :=
  (orderService.getOrdersPaginated orders page limit).2.1 = orders.length
  ∧ (orderService.getOrdersPaginated orders page limit).2.1
      ≤ (orderService.getOrdersPaginated orders page limit).2.2 * limit
  ∧ (orderService.getOrdersPaginated orders page limit).2.2 * limit
      < (orderService.getOrdersPaginated orders page limit).2.1 + limit
  ∧ List.Sorted (fun a b : Order => b.created_at ≤ a.created_at)
      (orderService.getOrdersPaginated orders page limit).1
  ∧ (orderService.getOrdersPaginated orders page limit).1
      = ((List.insertionSort (fun a b : Order => b.created_at ≤ a.created_at) orders).drop
          ((page - 1) * limit)).take limit
  ∧ (List.insertionSort (fun a b : Order => b.created_at ≤ a.created_at) orders).Perm orders
  ∧ ((orderService.getOrdersPaginated orders page limit).2.2 < page →
      (orderService.getOrdersPaginated orders page limit).1 = [])

/-- One stored order with the given creation timestamp (all other fields
fixed and valid). -/
def ordAt (i : Int) : Order :=
  { id := "o", curve_date := some 0, term := .jstr "1Y"
    amount_in_cents := .jnum (some 1), rate_at_submission := .jnum (some 1)
    series_id := .jstr "DGS1", created_at := i }

/-- Twenty-five stored orders created at times 0..24. -/
def orders25 : List Order := (List.range 25).map (fun i => ordAt i)

/-- What C8 asserts (amended) of `GET /api/orders` parameter handling:
`page` falls back to its default 1 when the parameter is absent, does not
parse to a number, or parses to 0 (all falsy under `parseInt(x) || 1`);
likewise `limit` falls back to 10; any other parsed value is used as-is;
a used `page < 1` is rejected with 400, a used `limit` outside `[1, 100]`
is rejected with 400, and in-range values reach pagination unchanged. -/
def getOrdersParamSpec (orders : List Order) (qpage qlimit : Option String) : Prop :=
  (qpage = none → orderController.jsOrDefault (orderController.jsParseIntOpt qpage) 1 = 1)
  ∧ (orderController.jsParseIntOpt qpage = none
      → orderController.jsOrDefault (orderController.jsParseIntOpt qpage) 1 = 1)
  ∧ (orderController.jsParseIntOpt qpage = some 0
      → orderController.jsOrDefault (orderController.jsParseIntOpt qpage) 1 = 1)
  ∧ (qlimit = none → orderController.jsOrDefault (orderController.jsParseIntOpt qlimit) 10 = 10)
  ∧ (orderController.jsParseIntOpt qlimit = none
      → orderController.jsOrDefault (orderController.jsParseIntOpt qlimit) 10 = 10)
  ∧ (orderController.jsParseIntOpt qlimit = some 0
      → orderController.jsOrDefault (orderController.jsParseIntOpt qlimit) 10 = 10)
  ∧ (∀ n : Int, orderController.jsParseIntOpt qpage = some n → n ≠ 0
      → orderController.jsOrDefault (orderController.jsParseIntOpt qpage) 1 = n)
  ∧ (∀ n : Int, orderController.jsParseIntOpt qlimit = some n → n ≠ 0
      → orderController.jsOrDefault (orderController.jsParseIntOpt qlimit) 10 = n)
  ∧ (orderController.jsOrDefault (orderController.jsParseIntOpt qpage) 1 < 1 →
      orderController.getOrders orders qpage qlimit
        = ⟨400, .failure "Page must be greater than 0"⟩)
  ∧ (1 ≤ orderController.jsOrDefault (orderController.jsParseIntOpt qpage) 1 →
      (orderController.jsOrDefault (orderController.jsParseIntOpt qlimit) 10 < 1
        ∨ 100 < orderController.jsOrDefault (orderController.jsParseIntOpt qlimit) 10) →
      orderController.getOrders orders qpage qlimit
        = ⟨400, .failure "Limit must be between 1 and 100"⟩)
  ∧ (1 ≤ orderController.jsOrDefault (orderController.jsParseIntOpt qpage) 1 →
      1 ≤ orderController.jsOrDefault (orderController.jsParseIntOpt qlimit) 10 →
      orderController.jsOrDefault (orderController.jsParseIntOpt qlimit) 10 ≤ 100 →
      orderController.getOrders orders qpage qlimit
        = ⟨200, .ordersPage
            (orderService.getOrdersPaginated orders
              (orderController.jsOrDefault (orderController.jsParseIntOpt qpage) 1).toNat
              (orderController.jsOrDefault (orderController.jsParseIntOpt qlimit) 10).toNat).1
            (orderController.jsOrDefault (orderController.jsParseIntOpt qpage) 1)
            (orderController.jsOrDefault (orderController.jsParseIntOpt qlimit) 10)
            (orderService.getOrdersPaginated orders
              (orderController.jsOrDefault (orderController.jsParseIntOpt qpage) 1).toNat
              (orderController.jsOrDefault (orderController.jsParseIntOpt qlimit) 10).toNat).2.1
            (orderService.getOrdersPaginated orders
              (orderController.jsOrDefault (orderController.jsParseIntOpt qpage) 1).toNat
              (orderController.jsOrDefault (orderController.jsParseIntOpt qlimit) 10).toNat).2.2⟩)

/-! ### Helper lemmas -/

theorem findKey_none (orders : List Order) (key : String) :
    orderService.findOrderByIdempotencyKey orders key = none := by
  induction orders with
  | nil => rfl
  | cons a t ih =>
    rw [orderService.findOrderByIdempotencyKey] at ih ⊢
    simp [List.find?_cons, orderService.orderIdemKey]

theorem listIsPrefixOf_self_append (l t : List Char) : l.isPrefixOf (l ++ t) = true := by
  induction l with
  | nil => cases t <;> rfl
  | cons a l ih => simp [List.isPrefixOf, ih]

theorem jsStartsWith_self_append (p x : String) : jsStartsWith (p ++ x) p = true := by
  unfold jsStartsWith
  rw [String.data_append]
  exact listIsPrefixOf_self_append _ _

theorem mapGet_mapReplace (store : IdemStore) (k : String) (v : IdemEntry)
    (h : store.any (fun p => p.1 = k) = true) :
    mapGet (store.map (fun p => if p.1 = k then (k, v) else p)) k = some v := by
  induction store with
  | nil => simp at h
  | cons a t ih =>
    by_cases hk : a.1 = k
    · simp [mapGet, hk, List.find?_cons]
    · have ht : t.any (fun p => p.1 = k) = true := by
        simp [List.any_cons, hk] at h
        simpa using h
      have := ih ht
      simp [mapGet, hk, List.find?_cons] at this ⊢
      exact this

theorem mapGet_append_single (store : IdemStore) (k : String) (v : IdemEntry)
    (h : store.any (fun p => p.1 = k) = false) :
    mapGet (store ++ [(k, v)]) k = some v := by
  induction store with
  | nil => simp [mapGet, List.find?_cons]
  | cons a t ih =>
    rw [List.any_cons] at h
    simp only [Bool.or_eq_false_iff, decide_eq_false_iff_not] at h
    obtain ⟨h1, h2⟩ := h
    have := ih h2
    simp [mapGet, List.cons_append, List.find?_cons, h1] at this ⊢
    exact this

theorem mapGet_mapSet_self (store : IdemStore) (k : String) (v : IdemEntry) :
    mapGet (mapSet store k v) k = some v := by
  unfold mapSet
  split_ifs with h
  · exact mapGet_mapReplace store k v h
  · exact mapGet_append_single store k v (Bool.eq_false_iff.mpr h)

theorem handle_missing (env : Env) (st : ServerState) (req : CreateRequest)
    (h : req.idempotencyKey = none ∨ req.idempotencyKey = some "") :
    handleCreateOrder env st req = (⟨400, .errorOnly "Missing Idempotency-Key header"⟩, st) := by
  rcases h with h | h <;> simp [handleCreateOrder, h]

theorem handle_replay (env : Env) (st : ServerState) (req : CreateRequest) (key : String)
    (entry : IdemEntry) (hk : req.idempotencyKey = some key) (hne : key ≠ "")
    (hget : mapGet st.idempotencyStore key = some entry) :
    handleCreateOrder env st req = (⟨entry.response.status, entry.response.data⟩, st) := by
  simp [handleCreateOrder, hk, hne, hget]

theorem handle_fresh (env : Env) (st : ServerState) (req : CreateRequest) (key : String)
    (hk : req.idempotencyKey = some key) (hne : key ≠ "")
    (hfresh : mapGet st.idempotencyStore key = none) :
    handleCreateOrder env st req =
      ((orderController.createOrder env st.orders key req.body).1,
       { idempotencyStore :=
           mapSet st.idempotencyStore key
             ⟨⟨(orderController.createOrder env st.orders key req.body).1.status,
               (orderController.createOrder env st.orders key req.body).1.body⟩, env.now⟩
         orders := (orderController.createOrder env st.orders key req.body).2 }) := by
  simp [handleCreateOrder, hk, hne, hfresh]

theorem controller_eq (env : Env) (orders : List Order) (key : String) (b : RawBody) :
    orderController.createOrder env orders key b =
      if missingFields b then
        (⟨400, .failure "Missing required fields: curve_date, term, series_id, amount_cents, rate"⟩,
          orders)
      else
        match orderService.createOrder env orders (buildOrderData env b) with
        | .ok (newOrder, orders2) => (⟨201, .created newOrder⟩, orders2)
        | .error msg =>
            if jsStartsWith msg "Validation failed:" then (⟨400, .failure msg⟩, orders)
            else (⟨500, .failure "Failed to create order"⟩, orders) := by
  rw [orderController.createOrder, findKey_none]

theorem service_createOrder_eq (env : Env) (orders : List Order) (od : OrderData) :
    orderService.createOrder env orders od =
      if (validateOrderData env od).isEmpty then
        .ok (orderService.mkNewOrder env od, orders ++ [orderService.mkNewOrder env od])
      else .error ("Validation failed: " ++ joinErrors (validateOrderData env od)) := rfl

theorem jsStartsWith_validation_msg (x : String) :
    jsStartsWith ("Validation failed: " ++ x) "Validation failed:" = true := by
  unfold jsStartsWith
  rw [String.data_append]
  have h : ("Validation failed: ").data = ("Validation failed:").data ++ [' '] := rfl
  rw [h, List.append_assoc]
  exact listIsPrefixOf_self_append _ _

theorem controller_growth (env : Env) (orders : List Order) (key : String) (b : RawBody) :
    ((orderController.createOrder env orders key b).1.status = 201
      ∧ (orderController.createOrder env orders key b).2
          = orders ++ [orderService.mkNewOrder env (buildOrderData env b)])
    ∨ ((orderController.createOrder env orders key b).1.status ≠ 201
      ∧ (orderController.createOrder env orders key b).2 = orders) := by
  rw [controller_eq, service_createOrder_eq]
  split_ifs <;> simp [jsStartsWith_validation_msg]

theorem handle_pair (env1 env2 : Env) (st : ServerState) (req : CreateRequest) (key : String)
    (hk : req.idempotencyKey = some key) (hne : key ≠ "") :
    handleCreateOrder env2 (handleCreateOrder env1 st req).2 req =
      ((handleCreateOrder env1 st req).1, (handleCreateOrder env1 st req).2) := by
  cases hget : mapGet st.idempotencyStore key with
  | some entry =>
      rw [handle_replay env1 st req key entry hk hne hget]
      exact handle_replay env2 st req key entry hk hne hget
  | none =>
      rw [handle_fresh env1 st req key hk hne hget]
      exact handle_replay env2
        ⟨mapSet st.idempotencyStore key
          ⟨⟨(orderController.createOrder env1 st.orders key req.body).1.status,
            (orderController.createOrder env1 st.orders key req.body).1.body⟩, env1.now⟩,
         (orderController.createOrder env1 st.orders key req.body).2⟩
        req key _ hk hne (mapGet_mapSet_self _ _ _)

theorem validateTerm_fields (od : OrderData) (e : OrderValidationError)
    (h : e ∈ validateTerm od) : e.field = "term" := by
  unfold validateTerm at h
  split at h <;> (try split_ifs at h) <;> simp_all

theorem validateAmount_fields (od : OrderData) (e : OrderValidationError)
    (h : e ∈ validateAmount od) : e.field = "amount_in_cents" := by
  unfold validateAmount at h
  split at h <;> (try split_ifs at h) <;> simp_all

theorem validateRate_fields (od : OrderData) (e : OrderValidationError)
    (h : e ∈ validateRate od) : e.field = "rate_at_submission" := by
  unfold validateRate at h
  split at h <;> (try split_ifs at h) <;> simp_all

theorem validateCurveDate_fields (env : Env) (od : OrderData) (e : OrderValidationError)
    (h : e ∈ validateCurveDate env od) : e.field = "curve_date" := by
  unfold validateCurveDate at h
  split at h
  · simp_all
  · rw [List.mem_append] at h
    rcases h with h | h <;> split_ifs at h <;> simp_all

theorem validateSeriesId_fields (od : OrderData) (e : OrderValidationError)
    (h : e ∈ validateSeriesId od) : e.field = "series_id" := by
  unfold validateSeriesId at h
  split at h <;> (try split_ifs at h) <;>
    (try split at h) <;> (try split_ifs at h) <;>
    (try split at h) <;> (try split_ifs at h) <;> simp_all

theorem hasErrorFor_append (a b : List OrderValidationError) (f : String) :
    hasErrorFor (a ++ b) f = (hasErrorFor a f || hasErrorFor b f) := by
  simp [hasErrorFor]

theorem hasErrorFor_eq_false (errs : List OrderValidationError) (f g : String)
    (hf : ∀ e ∈ errs, e.field = g) (hne : g ≠ f) : hasErrorFor errs f = false := by
  simp only [hasErrorFor, List.any_eq_false, decide_eq_false_iff_not]
  intro e he
  rw [hf e he]
  simpa using hne

theorem hasErrorFor_of_fields (errs : List OrderValidationError) (f : String)
    (hf : ∀ e ∈ errs, e.field = f) : hasErrorFor errs f = !errs.isEmpty := by
  cases errs with
  | nil => rfl
  | cons a t => simp [hasErrorFor, hf a (List.mem_cons_self a t)]

theorem validateAmount_empty_iff (od : OrderData) :
    validateAmount od = [] ↔ specAmountAccepted od := by
  unfold validateAmount specAmountAccepted
  cases ham : od.amount_in_cents <;> simp [ham]
  case jnum o =>
    cases o with
    | none => simp
    | some q =>
      simp only [Option.some.injEq, JVal.jnum.injEq, exists_eq_left]
      split_ifs with h1 h2 h3 <;> simp_all

theorem validateCurveDate_empty_iff (env : Env) (od : OrderData) :
    validateCurveDate env od = [] ↔ specCurveDateAccepted env od := by
  unfold validateCurveDate specCurveDateAccepted
  cases hcd : od.curve_date <;> simp [hcd]

theorem mem_VALID_TERMS_ne_empty : ∀ t ∈ VALID_TERMS, t ≠ "" := by decide

theorem lookupSeries_isSome : ∀ t ∈ VALID_TERMS, (lookupSeries t).isSome = true := by decide

theorem validateSeriesId_empty_iff (od : OrderData) :
    validateSeriesId od = [] ↔ specSeriesAccepted od := by
  unfold validateSeriesId specSeriesAccepted
  cases hsi : od.series_id <;> simp [hsi]
  case jstr s =>
    have hz : (jsTrim "").length = 0 := by decide
    split_ifs with h1 h2
    · simp_all
    · simp_all
    · cases htm : od.term <;> simp [htm, h2]
      rename_i t
      constructor
      · intro hL htv
        have ht : ¬t = "" := fun h => absurd (h ▸ htv) (by decide)
        have hm := hL ht htv
        cases hl : lookupSeries t with
        | none =>
            have hs := lookupSeries_isSome t htv
            rw [hl] at hs
            simp at hs
        | some exp =>
            rw [hl] at hm
            by_cases h4 : s = exp
            · exact congrArg some h4.symm
            · simp [h4] at hm
      · intro hR ht htv
        rw [hR htv]
        simp

theorem hasErrorFor_term_eq (env : Env) (od : OrderData) :
    hasErrorFor (validateOrderData env od) "term" = !(validateTerm od).isEmpty := by
  unfold validateOrderData
  rw [hasErrorFor_append, hasErrorFor_append, hasErrorFor_append, hasErrorFor_append,
      hasErrorFor_of_fields _ _ (validateTerm_fields od),
      hasErrorFor_eq_false _ _ _ (validateAmount_fields od) (by decide),
      hasErrorFor_eq_false _ _ _ (validateRate_fields od) (by decide),
      hasErrorFor_eq_false _ _ _ (validateCurveDate_fields env od) (by decide),
      hasErrorFor_eq_false _ _ _ (validateSeriesId_fields od) (by decide)]
  simp

theorem hasErrorFor_amount_eq (env : Env) (od : OrderData) :
    hasErrorFor (validateOrderData env od) "amount_in_cents" = !(validateAmount od).isEmpty := by
  unfold validateOrderData
  rw [hasErrorFor_append, hasErrorFor_append, hasErrorFor_append, hasErrorFor_append,
      hasErrorFor_of_fields _ _ (validateAmount_fields od),
      hasErrorFor_eq_false _ _ _ (validateTerm_fields od) (by decide),
      hasErrorFor_eq_false _ _ _ (validateRate_fields od) (by decide),
      hasErrorFor_eq_false _ _ _ (validateCurveDate_fields env od) (by decide),
      hasErrorFor_eq_false _ _ _ (validateSeriesId_fields od) (by decide)]
  simp

theorem hasErrorFor_rate_eq (env : Env) (od : OrderData) :
    hasErrorFor (validateOrderData env od) "rate_at_submission" = !(validateRate od).isEmpty := by
  unfold validateOrderData
  rw [hasErrorFor_append, hasErrorFor_append, hasErrorFor_append, hasErrorFor_append,
      hasErrorFor_of_fields _ _ (validateRate_fields od),
      hasErrorFor_eq_false _ _ _ (validateTerm_fields od) (by decide),
      hasErrorFor_eq_false _ _ _ (validateAmount_fields od) (by decide),
      hasErrorFor_eq_false _ _ _ (validateCurveDate_fields env od) (by decide),
      hasErrorFor_eq_false _ _ _ (validateSeriesId_fields od) (by decide)]
  simp

theorem hasErrorFor_curve_eq (env : Env) (od : OrderData) :
    hasErrorFor (validateOrderData env od) "curve_date" = !(validateCurveDate env od).isEmpty := by
  unfold validateOrderData
  rw [hasErrorFor_append, hasErrorFor_append, hasErrorFor_append, hasErrorFor_append,
      hasErrorFor_of_fields _ _ (validateCurveDate_fields env od),
      hasErrorFor_eq_false _ _ _ (validateTerm_fields od) (by decide),
      hasErrorFor_eq_false _ _ _ (validateAmount_fields od) (by decide),
      hasErrorFor_eq_false _ _ _ (validateRate_fields od) (by decide),
      hasErrorFor_eq_false _ _ _ (validateSeriesId_fields od) (by decide)]
  simp

theorem hasErrorFor_series_eq (env : Env) (od : OrderData) :
    hasErrorFor (validateOrderData env od) "series_id" = !(validateSeriesId od).isEmpty := by
  unfold validateOrderData
  rw [hasErrorFor_append, hasErrorFor_append, hasErrorFor_append, hasErrorFor_append,
      hasErrorFor_of_fields _ _ (validateSeriesId_fields od),
      hasErrorFor_eq_false _ _ _ (validateTerm_fields od) (by decide),
      hasErrorFor_eq_false _ _ _ (validateAmount_fields od) (by decide),
      hasErrorFor_eq_false _ _ _ (validateRate_fields od) (by decide),
      hasErrorFor_eq_false _ _ _ (validateCurveDate_fields env od) (by decide)]
  simp

/-! ### The claims -/

/-- C4: validation runs all field checks and reports the complete set of
failures together: an entry for a field appears in the accumulated list
exactly when that field's own check block fails, independently of the other
fields, and the spec's example `{term = "", amount_in_cents = -5,
rate_at_submission = 150}` yields entries for all three fields
simultaneously. -/
theorem validate_accumulates_all_failures :
    (∀ (env : Env) (od : OrderData),
        hasErrorFor (validateOrderData env od) "term" = !(validateTerm od).isEmpty
      ∧ hasErrorFor (validateOrderData env od) "amount_in_cents" = !(validateAmount od).isEmpty
      ∧ hasErrorFor (validateOrderData env od) "rate_at_submission" = !(validateRate od).isEmpty
      ∧ hasErrorFor (validateOrderData env od) "curve_date" = !(validateCurveDate env od).isEmpty
      ∧ hasErrorFor (validateOrderData env od) "series_id" = !(validateSeriesId od).isEmpty)
    ∧ (hasErrorFor (validateOrderData envA odC4) "term" = true
      ∧ hasErrorFor (validateOrderData envA odC4) "amount_in_cents" = true
      ∧ hasErrorFor (validateOrderData envA odC4) "rate_at_submission" = true) := by
  refine ⟨fun env od => ⟨hasErrorFor_term_eq env od, hasErrorFor_amount_eq env od,
    hasErrorFor_rate_eq env od, hasErrorFor_curve_eq env od, hasErrorFor_series_eq env od⟩, ?_⟩
  refine ⟨by decide, by decide, by decide⟩

/-- C5 (counterexample): a candidate whose curve date lies strictly after
`now` — but within the current day — passes validation with no errors, so
validation does not enforce "curve_date not after now" as claimed. -/
theorem curve_date_after_now_accepted :
    Env.wf envC5 ∧ validateOrderData envC5 odC5 = []
      ∧ odC5.curve_date = some 1000 ∧ envC5.now < 1000 := by
  refine ⟨⟨by decide, by decide, by decide⟩, by decide, rfl, by decide⟩

/-- C5 (amended): validation accepts `amount_in_cents` exactly when it is a
positive integer of at most 10^12; accepts `curve_date` exactly when it is
a valid date not after the end of the current day and not before now minus
ten years; accepts `series_id` exactly when it is a string that is
non-empty after trimming and, whenever the term is a member of the known
term set, equal to the series mapped from the term. -/
theorem validation_field_acceptance (env : Env) (od : OrderData) :
    (hasErrorFor (validateOrderData env od) "amount_in_cents" = false ↔ specAmountAccepted od)
    ∧ (hasErrorFor (validateOrderData env od) "curve_date" = false ↔ specCurveDateAccepted env od)
    ∧ (hasErrorFor (validateOrderData env od) "series_id" = false ↔ specSeriesAccepted od) := by
  refine ⟨?_, ?_, ?_⟩
  · rw [hasErrorFor_amount_eq, ← validateAmount_empty_iff od]
    simp [List.isEmpty_iff]
  · rw [hasErrorFor_curve_eq, ← validateCurveDate_empty_iff env od]
    simp [List.isEmpty_iff]
  · rw [hasErrorFor_series_eq, ← validateSeriesId_empty_iff od]
    simp [List.isEmpty_iff]

/-- C7: the sweep removes exactly the records whose `recorded_at` is
strictly older than the 24-hour TTL; every record within the TTL survives
unchanged (same key, same recorded response, same timestamp). -/
theorem cleanup_removes_exactly_expired (store : IdemStore) (now : Int)
    (e : String × IdemEntry) :
    e ∈ cleanupOldEntries now store
      ↔ e ∈ store ∧ ¬ e.2.timestamp < now - 24 * 60 * 60 * 1000 := by
  simp [cleanupOldEntries, List.mem_filter]

/-- C9: a `POST /api/orders` request without a truthy `Idempotency-Key`
header is rejected with status 400 and body
`{ error: "Missing Idempotency-Key header" }`, and the server state is
untouched: no idempotency record is written and the order pipeline never
runs. -/
theorem missing_idempotency_key_rejected (env : Env) (st : ServerState) (req : CreateRequest)
    (h : req.idempotencyKey = none ∨ req.idempotencyKey = some "") :
    handleCreateOrder env st req = (⟨400, .errorOnly "Missing Idempotency-Key header"⟩, st) := by
  rcases h with h | h <;> simp [handleCreateOrder, h]

/-- Witness for C9 at a concrete request with the header absent. -/
theorem missing_idempotency_key_rejected_witness :
    (⟨none, bodyValid⟩ : CreateRequest).idempotencyKey = none
      ∧ handleCreateOrder envA stEmpty ⟨none, bodyValid⟩
          = (⟨400, .errorOnly "Missing Idempotency-Key header"⟩, stEmpty) :=
  ⟨rfl, missing_idempotency_key_rejected envA stEmpty ⟨none, bodyValid⟩ (Or.inl rfl)⟩

/-- C10: no stored order carries an idempotency-key property, so
`findOrderByIdempotencyKey` always returns `undefined`; hence the
controller's 200 "Order already exists (idempotent)" branch is unreachable
(no controller response body is ever of that shape), and a request whose
key is already recorded is answered by the middleware's recorded-response
replay with no state change. -/
theorem idempotency_lookup_always_none :
    (∀ (orders : List Order) (key : String),
        orderService.findOrderByIdempotencyKey orders key = none)
    ∧ (∀ (env : Env) (orders : List Order) (key : String) (b : RawBody) (o : Order) (m : String),
        (orderController.createOrder env orders key b).1.body ≠ Body.existing o m)
    ∧ (∀ (env : Env) (st : ServerState) (req : CreateRequest) (key : String) (entry : IdemEntry),
        req.idempotencyKey = some key → key ≠ "" →
        mapGet st.idempotencyStore key = some entry →
        handleCreateOrder env st req = (⟨entry.response.status, entry.response.data⟩, st)) := by
  refine ⟨findKey_none, ?_, ?_⟩
  · intro env orders key b o m
    rw [controller_eq, service_createOrder_eq]
    split_ifs <;> simp [jsStartsWith_validation_msg]
  · intro env st req key entry hk hne hget
    exact handle_replay env st req key entry hk hne hget

/-- Witness for C10: in a state whose store remembers the `201` response for
`key-1`, the duplicate request is answered from the store, and the lookup
into the order array finds nothing even though the order is stored. -/
theorem idempotency_lookup_always_none_witness :
    orderService.findOrderByIdempotencyKey
        [orderService.mkNewOrder envA (buildOrderData envA bodyValid)] "key-1" = none
    ∧ handleCreateOrder envA stRecorded reqValid
        = (⟨entryRecorded.response.status, entryRecorded.response.data⟩, stRecorded) :=
  ⟨idempotency_lookup_always_none.1 _ "key-1",
    idempotency_lookup_always_none.2.2 envA stRecorded reqValid "key-1" entryRecorded rfl
      (by decide) (by decide)⟩

/-- C1 (counterexample): an invalid request submitted twice with the same
fresh key yields two byte-identical 400 responses, but the order collection
grows by zero, not by exactly one as the claim states. -/
theorem duplicate_invalid_request_grows_by_zero :
    (handleCreateOrder envA (handleCreateOrder envA stEmpty reqInvalid).2 reqInvalid).1
        = (handleCreateOrder envA stEmpty reqInvalid).1
    ∧ ((handleCreateOrder envA (handleCreateOrder envA stEmpty reqInvalid).2 reqInvalid).2).orders.length = 0
    ∧ stEmpty.orders.length + 1 ≠ 0 := by
  refine ⟨by decide, by decide, by decide⟩

/-- C1 (amended): for every keyed pair of identical requests the two
responses are byte-identical and the second leaves the state untouched;
the order collection grows by at most one — exactly one when the key was
fresh and the first response was a successful creation, zero otherwise. -/
theorem duplicate_request_replay_at_most_one_append
    (env1 env2 : Env) (st : ServerState) (req : CreateRequest) (key : String)
    (hk : req.idempotencyKey = some key) (hne : key ≠ "") :
    replayPairSpec env1 env2 st req key := by
  have hp := handle_pair env1 env2 st req key hk hne
  refine ⟨congrArg Prod.fst hp, congrArg Prod.snd hp, ?_⟩
  cases hget : mapGet st.idempotencyStore key with
  | some entry =>
      rw [handle_replay env1 st req key entry hk hne hget]
      simp [hget]
  | none =>
      rw [handle_fresh env1 st req key hk hne hget]
      rcases controller_growth env1 st.orders key req.body with ⟨h201, ho⟩ | ⟨h201, ho⟩ <;>
        rw [ho] <;> simp [h201, hget]

/-- Witness for C1 at a concrete valid request: the collection grows by
exactly one and the replay is byte-identical. -/
theorem duplicate_request_replay_witness :
    reqValid.idempotencyKey = some "key-1" ∧ ("key-1" : String) ≠ ""
      ∧ replayPairSpec envA envA stEmpty reqValid "key-1" :=
  ⟨rfl, by decide,
    duplicate_request_replay_at_most_one_append envA envA stEmpty reqValid "key-1" rfl (by decide)⟩

/-- C2 (counterexample): after a successful 201 creation under `key-1`, the
replayed response has status 201 — not 200 — and its body is the recorded
`{ success, data }` payload with no "Order already exists (idempotent)"
message. -/
theorem replay_of_success_has_status_201_not_200 :
    (handleCreateOrder envA stEmpty reqValid).1.status = 201
    ∧ (handleCreateOrder envA (handleCreateOrder envA stEmpty reqValid).2 reqValid).1
        = ⟨201, .created (orderService.mkNewOrder envA (buildOrderData envA bodyValid))⟩
    ∧ (handleCreateOrder envA (handleCreateOrder envA stEmpty reqValid).2 reqValid).1.status ≠ 200 := by
  refine ⟨by decide, by decide, by decide⟩

/-- C2 (amended): when a fresh key produced a successful (201) creation,
replaying the request returns the recorded response verbatim — status 201
and body `{ success: true, data: Order }` — rather than a 200 with an
"Order already exists (idempotent)" message. -/
theorem replay_of_recorded_success_mirrors_201
    (env1 env2 : Env) (st : ServerState) (req : CreateRequest) (key : String)
    (hk : req.idempotencyKey = some key) (hne : key ≠ "")
    (hfresh : mapGet st.idempotencyStore key = none)
    (h201 : (handleCreateOrder env1 st req).1.status = 201) :
    replaySuccessSpec env1 env2 st req := by
  refine ⟨?_, handle_pair env1 env2 st req key hk hne⟩
  rw [handle_fresh env1 st req key hk hne hfresh] at h201 ⊢
  rw [controller_eq, service_createOrder_eq] at h201 ⊢
  split_ifs at h201 ⊢ with h1 h2 <;> simp_all [jsStartsWith_validation_msg]

/-- Witness for C2 at the concrete valid request. -/
theorem replay_of_recorded_success_mirrors_201_witness :
    reqValid.idempotencyKey = some "key-1" ∧ ("key-1" : String) ≠ ""
      ∧ mapGet stEmpty.idempotencyStore "key-1" = none
      ∧ (handleCreateOrder envA stEmpty reqValid).1.status = 201
      ∧ replaySuccessSpec envA envA stEmpty reqValid :=
  ⟨rfl, by decide, rfl, by decide,
    replay_of_recorded_success_mirrors_201 envA envA stEmpty reqValid "key-1" rfl (by decide) rfl
      (by decide)⟩

/-- C3: a candidate that fails validation on a first-seen key appends no
order, is answered with a 400 carrying the full validation error list, has
that exact 400 recorded against the key, and a retry with the same key is
served from the record with no state change. -/
theorem validation_failure_recorded_and_replayed
    (env1 env2 : Env) (st : ServerState) (req : CreateRequest) (key : String)
    (hk : req.idempotencyKey = some key) (hne : key ≠ "")
    (hfresh : mapGet st.idempotencyStore key = none)
    (hmf : missingFields req.body = false)
    (hval : validateOrderData env1 (buildOrderData env1 req.body) ≠ []) :
    validationFailureSpec env1 env2 st req key := by
  refine ⟨?_, handle_pair env1 env2 st req key hk hne⟩
  rw [handle_fresh env1 st req key hk hne hfresh, controller_eq, service_createOrder_eq]
  have hie : (validateOrderData env1 (buildOrderData env1 req.body)).isEmpty = false := by
    cases hcase : validateOrderData env1 (buildOrderData env1 req.body) with
    | nil => exact absurd hcase hval
    | cons a t => rfl
  rw [hmf, hie]
  simp [jsStartsWith_validation_msg]

/-- Witness for C3 at the concrete invalid request (negative amount). -/
theorem validation_failure_recorded_witness :
    reqInvalid.idempotencyKey = some "key-1" ∧ ("key-1" : String) ≠ ""
      ∧ mapGet stEmpty.idempotencyStore "key-1" = none
      ∧ missingFields reqInvalid.body = false
      ∧ validateOrderData envA (buildOrderData envA reqInvalid.body) ≠ []
      ∧ validationFailureSpec envA envA stEmpty reqInvalid "key-1" :=
  ⟨rfl, by decide, rfl, by decide, by decide,
    validation_failure_recorded_and_replayed envA envA stEmpty reqInvalid "key-1" rfl (by decide)
      rfl (by decide) (by decide)⟩

/-- C6: for every collection, `page ≥ 1` and `1 ≤ limit ≤ 100`, the
paginated listing returns the descending-by-`created_at` slice
`[(page-1)*limit, page*limit)`, `total` equal to the collection size,
`total_pages = ceil(total/limit)`, and an empty page (not an error) past
the end. -/
theorem pagination_correct (orders : List Order) (page limit : Nat)
    (hp : 1 ≤ page) (hl : 1 ≤ limit) (_hl100 : limit ≤ 100) :
    paginationSpec orders page limit := by
  have hperm := List.perm_insertionSort
    (fun a b : Order => b.created_at ≤ a.created_at) orders
  have hlen : (List.insertionSort (fun a b : Order => b.created_at ≤ a.created_at) orders).length
      = orders.length := hperm.length_eq
  have hsorted := List.sorted_insertionSort
    (fun a b : Order => b.created_at ≤ a.created_at) orders
  unfold paginationSpec orderService.getOrdersPaginated
  simp only [hlen]
  set t := orders.length with ht
  have hdm := Nat.div_add_mod (t + limit - 1) limit
  have hmod : (t + limit - 1) % limit < limit := Nat.mod_lt _ hl
  refine ⟨trivial, ?_, ?_, ?_, trivial, hperm, ?_⟩
  · rw [Nat.mul_comm]; omega
  · rw [Nat.mul_comm]; omega
  · exact hsorted.sublist (List.Sublist.trans (List.take_sublist _ _) (List.drop_sublist _ _))
  · intro hpage
    have hle : t ≤ (page - 1) * limit := by
      have h1 : t ≤ (t + limit - 1) / limit * limit := by rw [Nat.mul_comm]; omega
      have h2 : (t + limit - 1) / limit ≤ page - 1 := by omega
      calc t ≤ (t + limit - 1) / limit * limit := h1
        _ ≤ (page - 1) * limit := Nat.mul_le_mul_right _ h2
    rw [List.drop_eq_nil_of_le (by rw [hlen]; exact hle), List.take_nil]

/-- Witness for C6: with 25 stored orders and `limit = 10`, page 3 returns
5 orders and `total_pages = 3`, page 4 returns an empty list, and three
orders created at times 1 < 2 < 3 come back in order 3, 2, 1. -/
theorem pagination_correct_witness :
    ((1 : ℕ) ≤ 3 ∧ (1 : ℕ) ≤ 10 ∧ (10 : ℕ) ≤ 100)
    ∧ paginationSpec orders25 3 10
    ∧ paginationSpec orders25 4 10
    ∧ (orderService.getOrdersPaginated orders25 3 10).1.length = 5
    ∧ (orderService.getOrdersPaginated orders25 3 10).2.2 = 3
    ∧ (orderService.getOrdersPaginated orders25 4 10).1 = []
    ∧ (orderService.getOrdersPaginated [ordAt 1, ordAt 2, ordAt 3] 1 10).1
        = [ordAt 3, ordAt 2, ordAt 1] :=
  ⟨⟨by decide, by decide, by decide⟩,
    pagination_correct orders25 3 10 (by decide) (by decide) (by decide),
    pagination_correct orders25 4 10 (by decide) (by decide) (by decide),
    by decide, by decide, by decide, by decide⟩

/-- C8 (amended): the parameter handling of `GET /api/orders` as the code
implements it — defaults on absent, non-numeric, or zero values; 400 only
for used out-of-range values; in-range values passed through. -/
theorem getOrders_param_handling (orders : List Order) (qpage qlimit : Option String) :
    getOrdersParamSpec orders qpage qlimit := by
  unfold getOrdersParamSpec
  refine ⟨?_, ?_, ?_, ?_, ?_, ?_, ?_, ?_, ?_, ?_, ?_⟩
  · intro h; simp [h, orderController.jsParseIntOpt, orderController.jsOrDefault]
  · intro h; simp [h, orderController.jsOrDefault]
  · intro h; simp [h, orderController.jsOrDefault]
  · intro h; simp [h, orderController.jsParseIntOpt, orderController.jsOrDefault]
  · intro h; simp [h, orderController.jsOrDefault]
  · intro h; simp [h, orderController.jsOrDefault]
  · intro n h hn; simp [h, orderController.jsOrDefault, hn]
  · intro n h hn; simp [h, orderController.jsOrDefault, hn]
  · intro h
    unfold orderController.getOrders
    rw [if_pos h]
  · intro h1 h2
    unfold orderController.getOrders
    rw [if_neg (by omega), if_pos h2]
  · intro h1 h2 h3
    unfold orderController.getOrders
    rw [if_neg (by omega), if_neg (by omega)]

/-- C8 (counterexample): a supplied `page=0` — a value less than 1 — is not
rejected: `parseInt("0") || 1` silently replaces it with the default and
the request succeeds with a 200. -/
theorem page_zero_not_rejected :
    orderController.jsParseIntOpt (some "0") = some 0 ∧ (0 : Int) < 1
    ∧ orderController.getOrders [] (some "0") none = ⟨200, .ordersPage [] 1 10 0 0⟩
    ∧ (orderController.getOrders [] (some "0") none).status ≠ 400 :=
  ⟨by decide, by decide, by decide, by decide⟩

/-- Witness for C8 at concrete query strings: an out-of-range limit and a
negative page are rejected, and absent parameters serve page 1 with limit
10. -/
theorem getOrders_param_handling_witness :
    orderController.getOrders [] (some "2") (some "101")
        = ⟨400, .failure "Limit must be between 1 and 100"⟩
    ∧ orderController.getOrders [] (some "-3") none
        = ⟨400, .failure "Page must be greater than 0"⟩
    ∧ orderController.getOrders [] none none = ⟨200, .ordersPage [] 1 10 0 0⟩ := by
  refine ⟨(getOrders_param_handling [] (some "2") (some "101")).2.2.2.2.2.2.2.2.2.1
      (by decide) (by decide),
    (getOrders_param_handling [] (some "-3") none).2.2.2.2.2.2.2.2.1 (by decide), ?_⟩
  exact ((getOrders_param_handling [] none none).2.2.2.2.2.2.2.2.2.2 (by decide) (by decide)
    (by decide)).trans (by decide)
